import Mathlib

/-!
Verification development for the MSA acquisition-and-recording subsystem.

Shallow embedding of the Python sources under src/api: the inter-process
state channel (ipc.py), the GPS sentence decoder (gps.py), the sensor
binary-packet decoder (sensors.py) and the recorder state machine
(data_logging.py).  Machine floats are embedded as rationals, datetimes as
rational epoch seconds, fallible code as Except values, and the worker
loops as explicit per-tick step functions over a state record, driven by a
list of tick environments (the values each loop observes from the shared
channels and the clock on that tick).
-/

/-- Python exceptions that appear in the embedded code paths. -/
inductive PyExn
  | noGPSData
  | noSensorData
  | indexError
  | parseError
  | attrError
  | runtimeError
deriving DecidableEq

/-- Boolean success test for an embedded fallible computation. -/
def exceptOk {α : Type} (x : Except PyExn α) : Bool :=
  match x with
  | .ok _ => true
  | .error _ => false

/-- messages.GPSStatus: aggregated GPS fix (datetime embedded as rational
epoch seconds, floats as rationals). -/
structure GPSStatus where
  timestamp : ℚ
  latitude : ℚ
  longitude : ℚ
  altitude : ℚ
  dop : ℚ
deriving DecidableEq

/-- messages.SensorValue: one decoded sensor channel value. -/
structure SensorValue where
  name : String
  short_name : String
  unit : String
  value : ℚ
deriving DecidableEq

/-- messages.RecorderStatus: the Recorder channel payload. -/
structure RecorderStatus where
  collection_id : Int
  collection_local_start_s : ℚ
  collected_points : ℕ
deriving DecidableEq

namespace GPSReceiver

/-- gps.GPSReceiver.get_current_status: returns the channel value and its
age, raising NoGPSData when nothing was ever published (channel value
still None) or the published fix carries the zero-latitude sentinel. -/
def get_current_status (st : Option GPSStatus) (age : ℚ) :
    Except PyExn (GPSStatus × ℚ) :=
  match st with
  | none => .error .noGPSData
  | some g => if g.latitude = 0 then .error .noGPSData else .ok (g, age)

/-- One field of a parsed NMEA sentence as the decode loop sees it:
missing from this sentence type, present but failing the float cast
(ValueError), or present with a value. -/
inductive FieldVal
  | absent
  | invalid
  | val (x : ℚ)
deriving DecidableEq

/-- The attributes gps.GPSReceiver.run reads off a parsed pynmea2
sentence.  The datetime attribute is used without a float cast, so it is
either absent or a value. -/
structure Sentence where
  dt : Option ℚ
  latitude : FieldVal
  longitude : FieldVal
  altitude : FieldVal
  pdop : FieldVal
deriving DecidableEq

/-- Outcome of pynmea2.parse on one buffered line: checksum or parse
failure, or a parsed sentence. -/
inductive ParseOutcome
  | failed
  | parsed (sen : Sentence)
deriving DecidableEq

/-- Result of the float cast applied to one getattr lookup: the old
accumulator value when the attribute is absent, the new value when
present, and none (ValueError) when the cast fails. -/
def fieldGet (f : FieldVal) (old : ℚ) : Option ℚ :=
  match f with
  | .absent => some old
  | .invalid => none
  | .val x => some x

/-- gps.GPSReceiver.run, lines 84-107: the body run on one complete
buffered line.  The accumulator fields are assigned one at a time
(timestamp, latitude, longitude, altitude, pdop); a failing cast raises
out of the remaining assignments, leaving the earlier ones in place, and
the aggregated tuple is published only after all five succeeded.  Returns
the new accumulator and the new channel value. -/
def processLine (acc : GPSStatus) (pub : Option GPSStatus) (o : ParseOutcome) :
    GPSStatus × Option GPSStatus :=
  match o with
  | .failed => (acc, pub)
  | .parsed sen =>
    let a1 := { acc with timestamp := sen.dt.getD acc.timestamp }
    match fieldGet sen.latitude acc.latitude with
    | none => (a1, pub)
    | some lat =>
      let a2 := { a1 with latitude := lat }
      match fieldGet sen.longitude acc.longitude with
      | none => (a2, pub)
      | some lon =>
        let a3 := { a2 with longitude := lon }
        match fieldGet sen.altitude acc.altitude with
        | none => (a3, pub)
        | some alt =>
          let a4 := { a3 with altitude := alt }
          match fieldGet sen.pdop acc.dop with
          | none => (a4, pub)
          | some d =>
            let a5 := { a4 with dop := d }
            (a5, some a5)

/-- Whether every field carried by the sentence passed its float cast. -/
def fieldValid (f : FieldVal) : Bool :=
  match f with
  | .invalid => false
  | _ => true

/-- A sentence none of whose carried fields fails its cast. -/
def sentenceValid (sen : Sentence) : Bool :=
  fieldValid sen.latitude && fieldValid sen.longitude &&
    fieldValid sen.altitude && fieldValid sen.pdop

/-- Field-wise merge of a sentence into the accumulated fix, written from
the spec wording: overwrite only the fields present in that sentence
type, carry the rest over from the prior accumulated fix. -/
def mergeFixSpec (acc : GPSStatus) (sen : Sentence) : GPSStatus :=
  let pick : FieldVal → ℚ → ℚ := fun f old =>
    match f with
    | .val x => x
    | _ => old
  { timestamp := sen.dt.getD acc.timestamp
    latitude := pick sen.latitude acc.latitude
    longitude := pick sen.longitude acc.longitude
    altitude := pick sen.altitude acc.altitude
    dop := pick sen.pdop acc.dop }

/-- gps.GPSReceiver.run, lines 66-74: the inner block-read loop.  Returns
the list of block-read sizes issued for a reported available byte count.
The loop body reads min(available, 32) bytes and then executes
available_bytes -= available_bytes. -/
def readBlocks (available : ℕ) : List ℕ :=
  if h : 0 < available then
    min available 32 :: readBlocks (available - available)
  else
    []
termination_by available
decreasing_by simpa [Nat.sub_self] using h

end GPSReceiver

namespace Sensors

/-- The closed set of extraction functions used by the sensor channel
descriptors (sensors.py lines 13-33): big-endian unsigned short, identity
unsigned char, the temperature transform, and a short scaled by a fixed
multiplier. -/
inductive ExtractKind
  | ushort
  | uchar
  | celsius
  | fixedMult (m : ℚ)
deriving DecidableEq

/-- sensors._unsigned_short_parser: compose two bytes big-endian. -/
def unsignedShort (b0 b1 : ℕ) : ℚ := ((b0 * 256 + b1 : ℕ) : ℚ)

/-- Apply one extraction function to the byte or byte pair it consumes
(single-byte extractions ignore the second argument). -/
def applyExtract (k : ExtractKind) (b0 b1 : ℕ) : ℚ :=
  match k with
  | .ushort => unsignedShort b0 b1
  | .uchar => (b0 : ℚ)
  | .celsius => (unsignedShort b0 b1 - 500) * (1 / 10)
  | .fixedMult m => unsignedShort b0 b1 * m

/-- sensors.RawDataClass: declarative descriptor of one sensor channel,
naming the byte offset(s) into the response frame and the extraction
function. -/
structure RawDataClass where
  name : String
  short_name : String
  unit : String
  byte_0 : ℕ
  byte_1 : Option ℕ
  extract : ExtractKind

/-- sensors.RawDataClass.__call__: index the data packet at the declared
offset(s) and run the extraction function.  Indexing a bytes object past
its end raises IndexError, which is modelled as the error branch. -/
def rawCall (rc : RawDataClass) (pkt : List ℕ) : Except PyExn SensorValue :=
  match rc.byte_1 with
  | none =>
    match pkt.get? rc.byte_0 with
    | none => .error .indexError
    | some b0 =>
      .ok ⟨rc.name, rc.short_name, rc.unit, applyExtract rc.extract b0 0⟩
  | some i1 =>
    match pkt.get? rc.byte_0 with
    | none => .error .indexError
    | some b0 =>
      match pkt.get? i1 with
      | none => .error .indexError
      | some b1 =>
        .ok ⟨rc.name, rc.short_name, rc.unit, applyExtract rc.extract b0 b1⟩

/-- sensors.WINSEN_DATAPACKET: the declarative channel table. -/
def WINSEN_DATAPACKET : List RawDataClass := [
  ⟨"PM 1.0", "pm_1_0", "ug/m3", 2, some 3, .ushort⟩,
  ⟨"PM 2.5", "pm_2_5", "ug/m3", 4, some 5, .ushort⟩,
  ⟨"PM 10", "pm_10", "ug/m3", 6, some 7, .ushort⟩,
  ⟨"Carbon Dioxide", "co2", "ppm", 8, some 9, .ushort⟩,
  ⟨"VOC", "voc", "grade", 10, none, .uchar⟩,
  ⟨"Temperature", "temp", "C", 11, some 12, .celsius⟩,
  ⟨"Humidity", "humidity", "%RH", 13, some 14, .ushort⟩,
  ⟨"Formaldehyde", "ch2o", "mg/m3", 15, some 16, .fixedMult (1 / 1000)⟩,
  ⟨"Carbon Monoxide", "co", "ppm", 17, some 18, .fixedMult (1 / 10)⟩,
  ⟨"Ozone", "o3", "ppm", 19, some 20, .fixedMult (1 / 100)⟩,
  ⟨"Nitrogen Dioxide", "no2", "ppm", 21, some 22, .fixedMult (1 / 100)⟩]

/-- The for-loop of sensors.SensorReceiver._parse_data_packet: run each
descriptor in order, appending its value; the first raised exception
propagates and discards the whole batch. -/
def parseChannels : List RawDataClass → List ℕ → Except PyExn (List SensorValue)
  | [], _ => .ok []
  | rc :: rest, pkt =>
    match rawCall rc pkt with
    | .error e => .error e
    | .ok v =>
      match parseChannels rest pkt with
      | .error e => .error e
      | .ok vs => .ok (v :: vs)

/-- sensors.SensorReceiver._parse_data_packet: run every channel
descriptor of the declarative table against the frame. -/
def parse_data_packet (pkt : List ℕ) : Except PyExn (List SensorValue) :=
  parseChannels WINSEN_DATAPACKET pkt

/-- What one sensor-loop read cycle did: published a full batch, skipped
the cycle (empty response or a caught ParseError), or died on an uncaught
exception. -/
inductive CycleOutcome
  | published (vals : List SensorValue)
  | skipped
  | crashed (e : PyExn)
deriving DecidableEq

/-- sensors.SensorReceiver.run, lines 147-156: the handling of one read
response.  An empty response skips; the parse attempt is guarded only by
an except clause for ParseError, so any other exception escapes the loop;
a successful parse publishes the batch to the sensor channel.  Returns
the outcome and the new channel value. -/
def sensor_cycle (pkt : List ℕ) (chan : Option (List SensorValue)) :
    CycleOutcome × Option (List SensorValue) :=
  if pkt.isEmpty then
    (.skipped, chan)
  else
    match parse_data_packet pkt with
    | .error .parseError => (.skipped, chan)
    | .error e => (.crashed e, chan)
    | .ok vals => (.published vals, some vals)

/-- sensors.SensorReceiver.get_current_status: raises NoSensorData when
the channel has never been published or holds an empty batch (both falsy
in the source test). -/
def get_current_status (st : Option (List SensorValue)) (age : ℚ) :
    Except PyExn (List SensorValue × ℚ) :=
  match st with
  | none => .error .noSensorData
  | some l => if l.isEmpty then .error .noSensorData else .ok (l, age)

end Sensors

/-- The recorder channel fields of ipc.BaseInterface as the blocking
helpers observe them: the desired flag, the acknowledged flag and the
last published RecorderStatus (None until the first publish). -/
structure RecChan where
  shouldRecord : Bool
  isRecording : Bool
  recStatus : Option RecorderStatus
deriving DecidableEq

namespace Recorder

/-- data_logging.Recorder.get_current_collection_id: dereference the
channel value with no guard; the None initial value raises
AttributeError. -/
def get_current_collection_id (st : Option RecorderStatus) :
    Except PyExn Int :=
  match st with
  | none => .error .attrError
  | some p => .ok p.collection_id

/-- data_logging.Recorder.get_elapsed_s: wall clock minus the published
local start, unguarded against the None initial value. -/
def get_elapsed_s (now : ℚ) (st : Option RecorderStatus) :
    Except PyExn ℚ :=
  match st with
  | none => .error .attrError
  | some p => .ok (now - p.collection_local_start_s)

/-- data_logging.Recorder.get_datapoints: the published point count,
unguarded against the None initial value. -/
def get_datapoints (st : Option RecorderStatus) : Except PyExn ℕ :=
  match st with
  | none => .error .attrError
  | some p => .ok p.collected_points

end Recorder

/-- data_logging.start_collection, lines 37-63: signal start, then poll
the recorder channel up to 600 times.  The observation function gives the
channel snapshot seen on each poll (the recorder process runs
concurrently).  Cancellation returns the -1 sentinel; an acknowledged
start returns the current collection id (raising AttributeError if the
channel value is still None); exhausting the bound raises RuntimeError.
The optional description update touches only the session store and is
omitted. -/
def start_collection_loop (obs : ℕ → RecChan) : ℕ → ℕ → Except PyExn Int
  | 0, _ => .error .runtimeError
  | fuel + 1, i =>
    let c := obs i
    if c.shouldRecord = false then .ok (-1)
    else if c.isRecording then Recorder.get_current_collection_id c.recStatus
    else start_collection_loop obs fuel (i + 1)

/-- data_logging.start_collection with its 600-poll budget. -/
def start_collection (obs : ℕ → RecChan) : Except PyExn Int :=
  start_collection_loop obs 600 0

/-- data_logging.stop_collection, lines 66-82: signal stop, then poll the
recorder channel up to 600 times.  A restarted desired flag returns the
-1 sentinel; an acknowledged stop returns the current collection id
(raising AttributeError if the channel value is still None); exhausting
the bound raises RuntimeError. -/
def stop_collection_loop (obs : ℕ → RecChan) : ℕ → ℕ → Except PyExn Int
  | 0, _ => .error .runtimeError
  | fuel + 1, i =>
    let c := obs i
    if c.shouldRecord then .ok (-1)
    else if c.isRecording then stop_collection_loop obs fuel (i + 1)
    else Recorder.get_current_collection_id c.recStatus

/-- data_logging.stop_collection with its 600-poll budget. -/
def stop_collection (obs : ℕ → RecChan) : Except PyExn Int :=
  stop_collection_loop obs 600 0

namespace Recorder

/-- data_logging.DATAPOINT_COLLECTION_INTERVAL_S. -/
def DATAPOINT_COLLECTION_INTERVAL_S : ℚ := 5

/-- One row of the collections table of the session store. -/
structure Collection where
  id : Int
  name : String
  start_s : ℚ
  end_s : Option ℚ
deriving DecidableEq

/-- One CSV data row, kept as the typed values the source formats into
the comma-delimited line: the fix timestamp, mission elapsed time, the
four position fields, then the sensor values in channel order. -/
structure CsvRow where
  ts : ℚ
  met : ℚ
  lat : ℚ
  lon : ℚ
  alt : ℚ
  dop : ℚ
  values : List ℚ
deriving DecidableEq

/-- One session CSV file: the header written at creation and the appended
data rows. -/
structure CsvFile where
  header : List String
  rows : List CsvRow
deriving DecidableEq

/-- The on-disk CSV files, keyed by collection name. -/
abbrev Files := List (String × CsvFile)

/-- os.path.exists plus open-for-read on the collection file. -/
def lookupFile (files : Files) (name : String) : Option CsvFile :=
  (files.find? (fun kv => kv.1 = name)).map (fun kv => kv.2)

/-- Append one data row to the named file. -/
def appendRow (files : Files) (name : String) (row : CsvRow) : Files :=
  files.map (fun kv =>
    if kv.1 = name then (kv.1, { kv.2 with rows := kv.2.rows ++ [row] }) else kv)

/-- The full state the recorder tick reads and writes: its own channel
fields, the sensor channel desired flag it drives, the local variables of
Recorder.run, the session store table and the CSV files. -/
structure RecState where
  shouldRecord : Bool
  isRecording : Bool
  recStatus : Option RecorderStatus
  sensorShould : Bool
  lastDatapoint : ℚ
  currentCollectionId : Int
  currentDatapoints : ℕ
  currentLocalStart : ℚ
  failedStartCycles : ℕ
  trueStart : ℚ
  collectionName : String
  db : List Collection
  files : Files
deriving DecidableEq

/-- Everything one tick of Recorder.run observes from outside its own
state: a start or stop signal arriving before the tick reads its channel,
the GPS and sensor channel snapshots with their ages, and the clock
samples taken at the collection-due check (tCheck), after a recording
attempt (tAfter) and at session start (tLocal). -/
structure TickEnv where
  extSignal : Option Bool
  gpsChan : Option GPSStatus
  gpsAge : ℚ
  sensorChan : Option (List SensorValue)
  sensorAge : ℚ
  tCheck : ℚ
  tAfter : ℚ
  tLocal : ℚ
deriving DecidableEq

/-- An externally arriving should_record signal lands on the recorder
channel before the tick reads it. -/
def applyExt (e : TickEnv) (s : RecState) : RecState :=
  match e.extSignal with
  | none => s
  | some b => { s with shouldRecord := b }

/-- data_logging.Recorder._current_time_from_gps: the timestamp of the
current GPS status, propagating NoGPSData. -/
def current_time_from_gps (st : Option GPSStatus) (age : ℚ) :
    Except PyExn ℚ :=
  match GPSReceiver.get_current_status st age with
  | .error e => .error e
  | .ok r => .ok r.1.timestamp

/-- The collection name derived from the GPS time and the host identity
(strftime formatting abstracted to a canonical rendering of the rational
epoch time). -/
def collectionName (t : ℚ) : String :=
  "collection_" ++ toString t.num ++ "_" ++ toString t.den ++ "-host"

/-- data_logging.Recorder._record_new_datapoint: read the sensor batch
then the GPS fix, returning the files unchanged if either raises no-data;
otherwise compute mission time as fix time minus the session true start,
create the file with its header row on first write, and append one data
row. -/
def record_new_datapoint (name : String) (true_start_s : ℚ) (files : Files)
    (e : TickEnv) : Files :=
  match Sensors.get_current_status e.sensorChan e.sensorAge with
  | .error _ => files
  | .ok sres =>
    match GPSReceiver.get_current_status e.gpsChan e.gpsAge with
    | .error _ => files
    | .ok gres =>
      let g := gres.1
      let mission_time : ℚ := g.timestamp - true_start_s
      let row : CsvRow :=
        { ts := g.timestamp, met := mission_time, lat := g.latitude,
          lon := g.longitude, alt := g.altitude, dop := g.dop,
          values := sres.1.map (fun v => v.value) }
      match lookupFile files name with
      | none =>
        let header := ["timestamp", "met", "lat", "lon", "alt", "dop"] ++
          sres.1.map (fun v => v.short_name)
        files ++ [(name, { header := header, rows := [row] })]
      | some _ => appendRow files name row

/-- data_logging.Recorder.run, lines 237-291: the not-currently-recording
section of one tick.  Returns the state together with a flag that is true
when the source executes a continue statement ending the tick, and false
when control falls through to the stop and record checks. -/
def startPhase (s : RecState) (e : TickEnv) : RecState × Bool :=
  if s.shouldRecord = false then (s, true)
  else if 20 < s.failedStartCycles then ({ s with shouldRecord := false }, true)
  else
    let s1 := if s.sensorShould = false then { s with sensorShould := true } else s
    match current_time_from_gps e.gpsChan e.gpsAge with
    | .error _ => ({ s1 with failedStartCycles := s1.failedStartCycles + 1 }, true)
    | .ok t =>
      match Sensors.get_current_status e.sensorChan e.sensorAge with
      | .error _ => ({ s1 with failedStartCycles := s1.failedStartCycles + 1 }, true)
      | .ok _ =>
        let name := collectionName t
        let cid : Int := (s1.db.length : Int) + 1
        ({ s1 with
            failedStartCycles := 0
            trueStart := t
            collectionName := name
            db := s1.db ++ [{ id := cid, name := name, start_s := t, end_s := none }]
            currentCollectionId := cid
            currentLocalStart := e.tLocal
            currentDatapoints := 0
            recStatus := some { collection_id := cid,
                                collection_local_start_s := e.tLocal,
                                collected_points := 0 }
            isRecording := true }, false)

/-- data_logging.Recorder.run, lines 294-312: the stop section.  Without
a GPS fix the tick is skipped and retried; with one, the session end time
is written to the store, the sensor decoder is told to stop and the
not-recording state is acknowledged. -/
def stopPhase (s : RecState) (e : TickEnv) : RecState :=
  match current_time_from_gps e.gpsChan e.gpsAge with
  | .error _ => s
  | .ok end_s =>
    { s with
        db := s.db.map (fun c =>
          if c.id = s.currentCollectionId then { c with end_s := some end_s } else c)
        sensorShould := false
        isRecording := false }

/-- data_logging.Recorder.run, lines 315-322: the record section.  When
the collection interval has elapsed, _record_new_datapoint runs, and the
point counter, the published status and the last-datapoint marker are
updated unconditionally afterwards. -/
def recordPhase (s : RecState) (e : TickEnv) : RecState :=
  if s.lastDatapoint + DATAPOINT_COLLECTION_INTERVAL_S ≤ e.tCheck then
    { s with
        files := record_new_datapoint s.collectionName s.trueStart s.files e
        currentDatapoints := s.currentDatapoints + 1
        recStatus := some { collection_id := s.currentCollectionId,
                            collection_local_start_s := s.currentLocalStart,
                            collected_points := s.currentDatapoints + 1 }
        lastDatapoint := e.tAfter }
  else s

/-- One tick of the Recorder.run while-loop after the channel read: run
the start section when not yet recording (whose continue statements end
the tick), then the stop check against the desired flag captured at the
top of the tick, and only when that flag is still set the collection-due
check. -/
def recorderTickBody (s : RecState) (e : TickEnv) : RecState :=
  let should := s.shouldRecord
  let p := if s.isRecording then (s, false) else startPhase s e
  if p.2 then p.1
  else if should = false then stopPhase p.1 e else recordPhase p.1 e

/-- One full tick: any externally arriving signal lands first, then the
loop body runs. -/
def recorderTick (s0 : RecState) (e : TickEnv) : RecState :=
  recorderTickBody (applyExt e s0) e

/-- Iterate recorderTick over a list of tick environments. -/
def recorderRun (s : RecState) : List TickEnv → RecState
  | [] => s
  | e :: es => recorderRun (recorderTick s e) es

/-- A tick on which no valid fix or reading is obtainable: the GPS
accessor or the sensor accessor raises. -/
def sourcesFail (e : TickEnv) : Bool :=
  !exceptOk (GPSReceiver.get_current_status e.gpsChan e.gpsAge) ||
    !exceptOk (Sensors.get_current_status e.sensorChan e.sensorAge)

/-- Every row of a session file carries a mission elapsed time equal to
its fix timestamp minus the session true start. -/
def metOk (T : ℚ) (f : CsvFile) : Prop :=
  ∀ r ∈ f.rows, r.met = r.ts - T

/-- A recorder state in the middle of a recording session, immediately
after its first session publish and before any datapoint. -/
def recordingState : RecState :=
  { shouldRecord := true, isRecording := true,
    recStatus := some ⟨1, 0, 0⟩, sensorShould := true, lastDatapoint := 0,
    currentCollectionId := 1, currentDatapoints := 0, currentLocalStart := 0,
    failedStartCycles := 0, trueStart := 0, collectionName := "c",
    db := [⟨1, "c", 0, none⟩], files := [] }

/-- A tick on which the datapoint interval has elapsed, the sensor
channel holds a batch, but the GPS channel was never published. -/
def noFixDueTick : TickEnv :=
  { extSignal := none, gpsChan := none, gpsAge := 0,
    sensorChan := some [⟨"VOC", "voc", "grade", 1⟩], sensorAge := 0,
    tCheck := 10, tAfter := 10, tLocal := 10 }

/-- The recorder daemon's local state at process start, a start signal
just received. -/
def freshStartState : RecState :=
  { shouldRecord := true, isRecording := false, recStatus := none,
    sensorShould := false, lastDatapoint := 0, currentCollectionId := -1,
    currentDatapoints := 0, currentLocalStart := 0, failedStartCycles := 0,
    trueStart := 0, collectionName := "UNKNOWN", db := [], files := [] }

/-- A tick on which neither channel has ever published. -/
def noDataTick : TickEnv :=
  { extSignal := none, gpsChan := none, gpsAge := 0, sensorChan := none,
    sensorAge := 0, tCheck := 0, tAfter := 0, tLocal := 0 }

/-- A recording-session state used to witness the mission-elapsed-time
invariant, with true start 2. -/
def metSessionState : RecState :=
  { shouldRecord := true, isRecording := true,
    recStatus := some ⟨1, 0, 0⟩, sensorShould := true, lastDatapoint := 0,
    currentCollectionId := 1, currentDatapoints := 0, currentLocalStart := 0,
    failedStartCycles := 0, trueStart := 2, collectionName := "c",
    db := [⟨1, "c", 2, none⟩], files := [] }

/-- A tick with both channels live and the datapoint interval elapsed. -/
def liveDueTick : TickEnv :=
  { extSignal := none, gpsChan := some ⟨9, 4, 5, 6, 7⟩, gpsAge := 0,
    sensorChan := some [⟨"VOC", "voc", "grade", 1⟩], sensorAge := 0,
    tCheck := 10, tAfter := 10, tLocal := 10 }

end Recorder

namespace GPSReceiver

theorem readBlocks_zero : readBlocks 0 = [] := by
  rw [readBlocks]
  simp

theorem readBlocks_pos (a : ℕ) (h : 0 < a) : readBlocks a = [min a 32] := by
  rw [readBlocks]
  simp [h, Nat.sub_self, readBlocks_zero]

end GPSReceiver

namespace Recorder

/-- A tick whose captured desired flag is false never touches the files
or the point counter and leaves the desired flag false: control reaches
the stop section (or the idle branch), never the record section. -/
theorem body_should_false (s : RecState) (e : TickEnv)
    (hs : s.shouldRecord = false) :
    (recorderTickBody s e).files = s.files ∧
    (recorderTickBody s e).currentDatapoints = s.currentDatapoints ∧
    (recorderTickBody s e).shouldRecord = false := by
  unfold recorderTickBody
  cases hrec : s.isRecording with
  | false =>
    simp [hrec, startPhase, hs]
  | true =>
    simp only [hrec, if_true, hs]
    unfold stopPhase
    cases hg : current_time_from_gps e.gpsChan e.gpsAge with
    | error ex => simp [hg, hs]
    | ok t => simp [hg, hs]

/-- An external signal that is not a start request leaves a false desired
flag false and changes no other field. -/
theorem applyExt_not_start (s : RecState) (e : TickEnv)
    (hs : s.shouldRecord = false) (he : e.extSignal ≠ some true) :
    (applyExt e s).shouldRecord = false ∧
    (applyExt e s).files = s.files ∧
    (applyExt e s).currentDatapoints = s.currentDatapoints ∧
    (applyExt e s).isRecording = s.isRecording := by
  unfold applyExt
  cases hx : e.extSignal with
  | none => exact ⟨hs, rfl, rfl, rfl⟩
  | some b =>
    cases b with
    | false => exact ⟨rfl, rfl, rfl, rfl⟩
    | true => exact absurd hx he

/-- Single-tick form of C1. -/
theorem tick_should_false (s : RecState) (e : TickEnv)
    (hs : s.shouldRecord = false) (he : e.extSignal ≠ some true) :
    (recorderTick s e).files = s.files ∧
    (recorderTick s e).currentDatapoints = s.currentDatapoints ∧
    (recorderTick s e).shouldRecord = false := by
  obtain ⟨h1, h2, h3, _⟩ := applyExt_not_start s e hs he
  obtain ⟨b1, b2, b3⟩ := body_should_false (applyExt e s) e h1
  exact ⟨b1.trans h2, b2.trans h3, b3⟩

end Recorder

/-- C1: within the Recorder the stop check is evaluated before the
is-it-time-to-record check, so once a tick observes a false desired flag,
that tick and every later tick of the session (no new start signal
arriving) appends no CSV row and advances no point counter, even when the
stop lands exactly on a collection boundary. -/
theorem stop_observed_no_later_datapoint (envs : List Recorder.TickEnv)
    (s : Recorder.RecState) (hs : s.shouldRecord = false)
    (he : ∀ e ∈ envs, e.extSignal ≠ some true) :
    (Recorder.recorderRun s envs).files = s.files ∧
    (Recorder.recorderRun s envs).currentDatapoints = s.currentDatapoints ∧
    (Recorder.recorderRun s envs).shouldRecord = false := by
  induction envs generalizing s with
  | nil => exact ⟨rfl, rfl, hs⟩
  | cons e es ih =>
    obtain ⟨t1, t2, t3⟩ :=
      Recorder.tick_should_false s e hs (he e (List.mem_cons_self e es))
    obtain ⟨r1, r2, r3⟩ := ih (Recorder.recorderTick s e) t3
      (fun x hx => he x (List.mem_cons_of_mem e hx))
    exact ⟨r1.trans t1, r2.trans t2, r3⟩

/-- Witness for C1: a stop signal observed while recording, on a tick
whose collection interval has elapsed, records nothing then or on the
following tick. -/
theorem stop_observed_no_later_datapoint_witness :
    (Recorder.recorderRun
        { Recorder.recordingState with shouldRecord := false }
        [Recorder.noFixDueTick, Recorder.liveDueTick]).files =
      ({ Recorder.recordingState with shouldRecord := false} : Recorder.RecState).files ∧
    (Recorder.recorderRun
        { Recorder.recordingState with shouldRecord := false }
        [Recorder.noFixDueTick, Recorder.liveDueTick]).currentDatapoints =
      ({ Recorder.recordingState with shouldRecord := false} : Recorder.RecState).currentDatapoints ∧
    (Recorder.recorderRun
        { Recorder.recordingState with shouldRecord := false }
        [Recorder.noFixDueTick, Recorder.liveDueTick]).shouldRecord = false :=
  stop_observed_no_later_datapoint [Recorder.noFixDueTick, Recorder.liveDueTick]
    { Recorder.recordingState with shouldRecord := false } rfl (by decide)

namespace Recorder

/-- Creating the session file registers it under its name. -/
theorem lookupFile_append_new (files : Files) (name : String) (F : CsvFile)
    (h : lookupFile files name = none) :
    lookupFile (files ++ [(name, F)]) name = some F := by
  induction files with
  | nil => simp [lookupFile, List.find?]
  | cons kv fs ih =>
    by_cases hkv : kv.1 = name
    · exfalso
      unfold lookupFile at h
      rw [List.find?_cons_of_pos _ (by simp [hkv])] at h
      simp at h
    · unfold lookupFile at h ⊢
      rw [List.cons_append, List.find?_cons_of_neg _ (by simp [hkv])]
      rw [List.find?_cons_of_neg _ (by simp [hkv])] at h
      exact ih h

/-- Appending a row to the session file updates exactly the file its name
resolves to. -/
theorem lookupFile_appendRow (files : Files) (name : String) (row : CsvRow)
    (f0 : CsvFile) (h : lookupFile files name = some f0) :
    lookupFile (appendRow files name row) name =
      some { f0 with rows := f0.rows ++ [row] } := by
  induction files with
  | nil => simp [lookupFile] at h
  | cons kv fs ih =>
    by_cases hkv : kv.1 = name
    · unfold lookupFile at h
      rw [List.find?_cons_of_pos _ (by simp [hkv])] at h
      simp at h
      unfold appendRow lookupFile
      rw [List.map_cons]
      simp only [hkv, if_true]
      rw [List.find?_cons_of_pos _ (by simp)]
      simp [h]
    · unfold lookupFile at h
      rw [List.find?_cons_of_neg _ (by simp [hkv])] at h
      have ih2 := ih h
      unfold appendRow lookupFile at ih2 ⊢
      rw [List.map_cons]
      simp only [hkv, if_false]
      rw [List.find?_cons_of_neg _ (by simp [hkv])]
      exact ih2

/-- A tick taken in the Recording state with the desired flag still set
stays in that state, keeps the session identity (name and true start),
and preserves the property that every row of the session file carries a
mission elapsed time equal to its fix timestamp minus the session true
start: a newly appended row is built that way by _record_new_datapoint. -/
theorem recording_tick_preserves (s : RecState) (e : TickEnv)
    (h1 : s.isRecording = true) (h2 : s.shouldRecord = true)
    (hn : e.extSignal = none) :
    (recorderTick s e).isRecording = true ∧
    (recorderTick s e).shouldRecord = true ∧
    (recorderTick s e).collectionName = s.collectionName ∧
    (recorderTick s e).trueStart = s.trueStart ∧
    ((∀ f, lookupFile s.files s.collectionName = some f → metOk s.trueStart f) →
      ∀ f, lookupFile (recorderTick s e).files s.collectionName = some f →
        metOk s.trueStart f) := by
  have htick : recorderTick s e = recordPhase s e := by
    unfold recorderTick applyExt recorderTickBody
    rw [hn]
    simp [h1, h2]
  rw [htick]
  unfold recordPhase
  by_cases hdue : s.lastDatapoint + DATAPOINT_COLLECTION_INTERVAL_S ≤ e.tCheck
  · rw [if_pos hdue]
    refine ⟨h1, h2, rfl, rfl, ?_⟩
    intro hinv f hf
    have hf2 : lookupFile
        (record_new_datapoint s.collectionName s.trueStart s.files e)
        s.collectionName = some f := hf
    unfold record_new_datapoint at hf2
    cases hsen : Sensors.get_current_status e.sensorChan e.sensorAge with
    | error ex =>
      rw [hsen] at hf2
      exact hinv f hf2
    | ok sres =>
      rw [hsen] at hf2
      cases hg : GPSReceiver.get_current_status e.gpsChan e.gpsAge with
      | error ex =>
        rw [hg] at hf2
        exact hinv f hf2
      | ok gres =>
        rw [hg] at hf2
        cases hlk : lookupFile s.files s.collectionName with
        | none =>
          rw [hlk, lookupFile_append_new _ _ _ hlk] at hf2
          obtain rfl := Option.some.inj hf2
          intro r hr
          simp only [List.mem_singleton] at hr
          subst hr
          rfl
        | some f0 =>
          rw [hlk, lookupFile_appendRow _ _ _ _ hlk] at hf2
          obtain rfl := Option.some.inj hf2
          intro r hr
          simp only [List.mem_append, List.mem_singleton] at hr
          cases hr with
          | inl hr0 => exact hinv f0 hlk r hr0
          | inr hr1 =>
            subst hr1
            rfl
  · rw [if_neg hdue]
    exact ⟨h1, h2, rfl, rfl, fun hinv => hinv⟩

/-- Over a run that stays in the Recording state, every row the session
file accumulates carries a mission elapsed time equal to its fix
timestamp minus the session true start. -/
theorem run_recording_inv (envs : List TickEnv) (s : RecState)
    (h1 : s.isRecording = true) (h2 : s.shouldRecord = true)
    (hn : ∀ e ∈ envs, e.extSignal = none)
    (hinv : ∀ f, lookupFile s.files s.collectionName = some f →
      metOk s.trueStart f) :
    ∀ f, lookupFile (recorderRun s envs).files s.collectionName = some f →
      metOk s.trueStart f := by
  induction envs generalizing s with
  | nil => exact hinv
  | cons e es ih =>
    obtain ⟨t1, t2, t3, t4, t5⟩ :=
      recording_tick_preserves s e h1 h2 (hn e (List.mem_cons_self e es))
    have hnext := ih (recorderTick s e) t1 t2
      (fun x hx => hn x (List.mem_cons_of_mem e hx))
    rw [t3, t4] at hnext
    exact hnext (t5 hinv)

end Recorder

/-- C9: every CSV row appended during a recording session carries a
mission-elapsed-time column equal to the row's fix timestamp minus the
session's true GPS start (exactly, in the rational embedding), and
therefore the mission-elapsed-time values of the session file are
monotonically non-decreasing whenever the fix timestamps used for its
rows are. -/
theorem met_rows_match_and_monotone (envs : List Recorder.TickEnv)
    (s : Recorder.RecState) (h1 : s.isRecording = true)
    (h2 : s.shouldRecord = true) (hn : ∀ e ∈ envs, e.extSignal = none)
    (hinv : ∀ f, Recorder.lookupFile s.files s.collectionName = some f →
      Recorder.metOk s.trueStart f) :
    ∀ f, Recorder.lookupFile (Recorder.recorderRun s envs).files
        s.collectionName = some f →
      Recorder.metOk s.trueStart f ∧
      (List.Chain' (· ≤ ·) (f.rows.map Recorder.CsvRow.ts) →
        List.Chain' (· ≤ ·) (f.rows.map Recorder.CsvRow.met)) := by
  intro f hf
  have hm := Recorder.run_recording_inv envs s h1 h2 hn hinv f hf
  refine ⟨hm, fun hc => ?_⟩
  have hmap : f.rows.map Recorder.CsvRow.met =
      (f.rows.map Recorder.CsvRow.ts).map (fun x => x - s.trueStart) := by
    rw [List.map_map]
    exact List.map_congr_left (fun r hr => hm r hr)
  rw [hmap, List.chain'_map]
  exact List.Chain'.imp (fun a b hab => sub_le_sub_right hab _) hc

/-- Witness for C9: one recording tick with a live fix at timestamp 9 in
a session with true start 2 appends the row with mission elapsed time 7,
and the monotone transfer holds on that file. -/
theorem met_rows_match_and_monotone_witness :
    Recorder.metOk (2 : ℚ)
      ⟨["timestamp", "met", "lat", "lon", "alt", "dop", "voc"],
       [⟨9, 7, 4, 5, 6, 7, [1]⟩]⟩ ∧
    (List.Chain' (· ≤ ·)
        (([⟨9, 7, 4, 5, 6, 7, [1]⟩] : List Recorder.CsvRow).map
          Recorder.CsvRow.ts) →
      List.Chain' (· ≤ ·)
        (([⟨9, 7, 4, 5, 6, 7, [1]⟩] : List Recorder.CsvRow).map
          Recorder.CsvRow.met)) := by
  have hf : Recorder.lookupFile
      (Recorder.recorderRun Recorder.metSessionState
        [Recorder.liveDueTick]).files
      Recorder.metSessionState.collectionName =
      some ⟨["timestamp", "met", "lat", "lon", "alt", "dop", "voc"],
            [⟨9, 7, 4, 5, 6, 7, [1]⟩]⟩ := by
    norm_num [Recorder.recorderRun, Recorder.recorderTick, Recorder.applyExt,
      Recorder.recorderTickBody, Recorder.recordPhase,
      Recorder.record_new_datapoint, Recorder.DATAPOINT_COLLECTION_INTERVAL_S,
      Recorder.metSessionState, Recorder.liveDueTick, Recorder.lookupFile,
      Sensors.get_current_status, GPSReceiver.get_current_status, List.find?]
  exact met_rows_match_and_monotone [Recorder.liveDueTick]
    Recorder.metSessionState rfl rfl (by decide)
    (by intro f hf0; simp [Recorder.lookupFile, Recorder.metSessionState] at hf0)
    _ hf

/-- C2: on a Recording-state tick whose collection interval has elapsed
but whose GPS channel raises no-data, _record_new_datapoint returns
without appending a CSV row, yet the caller still increments the point
counter to 1, republishes SessionProgress carrying 1 collected point and
advances the last-datapoint marker to the tick time, so the published
point count exceeds the CSV row count. -/
theorem datapoint_counter_advances_without_row :
    (Recorder.recorderTick Recorder.recordingState Recorder.noFixDueTick).currentDatapoints = 1 ∧
    (Recorder.recorderTick Recorder.recordingState Recorder.noFixDueTick).files = [] ∧
    (Recorder.recorderTick Recorder.recordingState Recorder.noFixDueTick).recStatus =
      some ⟨1, 0, 1⟩ ∧
    (Recorder.recorderTick Recorder.recordingState Recorder.noFixDueTick).lastDatapoint = 10 := by
  norm_num [Recorder.recorderTick, Recorder.applyExt, Recorder.recorderTickBody,
    Recorder.recordingState, Recorder.noFixDueTick, Recorder.recordPhase,
    Recorder.record_new_datapoint, Recorder.DATAPOINT_COLLECTION_INTERVAL_S,
    Sensors.get_current_status, GPSReceiver.get_current_status]

namespace Recorder

/-- The start-sensor-collection statement leaves the desired sensor flag
set whether or not it was already set. -/
theorem sensorShould_set (s : RecState) :
    (if s.sensorShould = false then { s with sensorShould := true } else s) =
      { s with sensorShould := true } := by
  by_cases h : s.sensorShould = false
  · simp [h]
  · simp only [h, if_false]
    cases s
    simp_all

/-- An idle tick (no desired signal, not recording) changes nothing. -/
theorem body_idle (s : RecState) (e : TickEnv) (hs : s.shouldRecord = false)
    (hrec : s.isRecording = false) : recorderTickBody s e = s := by
  unfold recorderTickBody startPhase
  simp [hs, hrec]

/-- A start tick within the retry budget on which a fix or a reading is
unobtainable only starts the sensor decoder and increments the failure
counter. -/
theorem body_failing_start (s : RecState) (e : TickEnv)
    (hs : s.shouldRecord = true) (hrec : s.isRecording = false)
    (hk : s.failedStartCycles ≤ 20) (hf : sourcesFail e = true) :
    recorderTickBody s e =
      { s with sensorShould := true,
               failedStartCycles := s.failedStartCycles + 1 } := by
  have hk2 : ¬ 20 < s.failedStartCycles := by omega
  cases hg : GPSReceiver.get_current_status e.gpsChan e.gpsAge with
  | error ex =>
    have hct : current_time_from_gps e.gpsChan e.gpsAge = .error ex := by
      unfold current_time_from_gps
      rw [hg]
    unfold recorderTickBody startPhase
    rw [sensorShould_set]
    simp [hs, hrec, hk2, hct]
  | ok r =>
    cases hsen : Sensors.get_current_status e.sensorChan e.sensorAge with
    | error ex2 =>
      have hct : current_time_from_gps e.gpsChan e.gpsAge = .ok r.1.timestamp := by
        unfold current_time_from_gps
        rw [hg]
      unfold recorderTickBody startPhase
      rw [sensorShould_set]
      simp [hs, hrec, hk2, hct, hsen]
    | ok r2 =>
      exfalso
      simp [sourcesFail, exceptOk, hg, hsen] at hf

/-- A start tick past the retry budget only forces the desired flag back
to false. -/
theorem body_give_up (s : RecState) (e : TickEnv)
    (hs : s.shouldRecord = true) (hrec : s.isRecording = false)
    (hk : 20 < s.failedStartCycles) :
    recorderTickBody s e = { s with shouldRecord := false } := by
  unfold recorderTickBody startPhase
  simp [hs, hrec, hk]

/-- Over any run whose every tick lacks a fix or a reading and carries no
external signal, the session store is untouched, recording is never
acknowledged, a false desired flag stays false, and a true desired flag
is forced false once the tick budget from the current failure count is
spent. -/
theorem run_failing (envs : List TickEnv) (s : RecState)
    (hall : ∀ e ∈ envs, e.extSignal = none ∧ sourcesFail e = true)
    (hrec : s.isRecording = false) :
    (recorderRun s envs).db = s.db ∧
    (recorderRun s envs).isRecording = false ∧
    (s.shouldRecord = false → (recorderRun s envs).shouldRecord = false) ∧
    (s.shouldRecord = true → 22 ≤ s.failedStartCycles + envs.length →
      1 ≤ envs.length → (recorderRun s envs).shouldRecord = false) := by
  induction envs generalizing s with
  | nil =>
    exact ⟨rfl, hrec, fun h => h, fun _ _ h1 => absurd h1 (by simp)⟩
  | cons e es ih =>
    obtain ⟨hn, hf⟩ := hall e (List.mem_cons_self e es)
    have htick : recorderTick s e = recorderTickBody s e := by
      unfold recorderTick applyExt
      rw [hn]
    have htail : ∀ x ∈ es, x.extSignal = none ∧ sourcesFail x = true :=
      fun x hx => hall x (List.mem_cons_of_mem e hx)
    have hrun : recorderRun s (e :: es) = recorderRun (recorderTick s e) es := rfl
    cases hsr : s.shouldRecord with
    | false =>
      have hstep : recorderTick s e = s := htick.trans (body_idle s e hsr hrec)
      obtain ⟨i1, i2, i3, _⟩ := ih s htail hrec
      rw [hrun, hstep]
      exact ⟨i1, i2, fun _ => i3 hsr, fun h => by simp at h⟩
    | true =>
      by_cases hk : s.failedStartCycles ≤ 20
      · have hstep : recorderTick s e =
            { s with sensorShould := true,
                     failedStartCycles := s.failedStartCycles + 1 } :=
          htick.trans (body_failing_start s e hsr hrec hk hf)
        obtain ⟨i1, i2, i3, i4⟩ := ih
          { s with sensorShould := true,
                   failedStartCycles := s.failedStartCycles + 1 } htail hrec
        rw [hrun, hstep]
        refine ⟨i1, i2, fun h => by simp at h, ?_⟩
        intro _ hlen _
        have hlen2 : 22 ≤ s.failedStartCycles + 1 + es.length := by
          simp only [List.length_cons] at hlen
          omega
        have hes : 1 ≤ es.length := by
          simp only [List.length_cons] at hlen
          omega
        exact i4 hsr hlen2 hes
      · have hk2 : 20 < s.failedStartCycles := by omega
        have hstep : recorderTick s e = { s with shouldRecord := false } :=
          htick.trans (body_give_up s e hsr hrec hk2)
        obtain ⟨i1, i2, i3, _⟩ := ih { s with shouldRecord := false } htail hrec
        rw [hrun, hstep]
        exact ⟨i1, i2, fun h => by simp at h, fun _ _ _ => i3 rfl⟩

/-- The record section never touches the session store table. -/
theorem recordPhase_db (s : RecState) (e : TickEnv) :
    (recordPhase s e).db = s.db := by
  unfold recordPhase
  split_ifs <;> rfl

/-- The stop section preserves the length of the session store table (it
may update an end time in place). -/
theorem stopPhase_db_length (s : RecState) (e : TickEnv) :
    ((stopPhase s e).db).length = s.db.length := by
  unfold stopPhase
  cases hct : current_time_from_gps e.gpsChan e.gpsAge with
  | error ex => rfl
  | ok t => simp

/-- When a fix or a reading is unobtainable the start section always ends
its tick with a continue. -/
theorem startPhase_fail_flag (s : RecState) (e : TickEnv)
    (hsrc : sourcesFail e = true) : (startPhase s e).2 = true := by
  unfold startPhase
  cases hg : GPSReceiver.get_current_status e.gpsChan e.gpsAge with
  | error ex =>
    have hct : current_time_from_gps e.gpsChan e.gpsAge = .error ex := by
      unfold current_time_from_gps
      rw [hg]
    simp only [hct]
    split_ifs <;> rfl
  | ok r =>
    cases hsen : Sensors.get_current_status e.sensorChan e.sensorAge with
    | error ex2 =>
      have hct : current_time_from_gps e.gpsChan e.gpsAge = .ok r.1.timestamp := by
        unfold current_time_from_gps
        rw [hg]
      simp only [hct, hsen]
      split_ifs <;> rfl
    | ok r2 =>
      exfalso
      simp [sourcesFail, exceptOk, hg, hsen] at hsrc

/-- When a fix or a reading is unobtainable the start section never
inserts a session row. -/
theorem startPhase_fail_db (s : RecState) (e : TickEnv)
    (hsrc : sourcesFail e = true) : ((startPhase s e).1).db = s.db := by
  unfold startPhase
  cases hg : GPSReceiver.get_current_status e.gpsChan e.gpsAge with
  | error ex =>
    have hct : current_time_from_gps e.gpsChan e.gpsAge = .error ex := by
      unfold current_time_from_gps
      rw [hg]
    simp only [hct]
    split_ifs <;> rfl
  | ok r =>
    cases hsen : Sensors.get_current_status e.sensorChan e.sensorAge with
    | error ex2 =>
      have hct : current_time_from_gps e.gpsChan e.gpsAge = .ok r.1.timestamp := by
        unfold current_time_from_gps
        rw [hg]
      simp only [hct, hsen]
      split_ifs <;> rfl
    | ok r2 =>
      exfalso
      simp [sourcesFail, exceptOk, hg, hsen] at hsrc

/-- When a fix or a reading is unobtainable, no path of the tick body
changes the number of session store rows. -/
theorem body_db_length_no_sources (s : RecState) (e : TickEnv)
    (hsrc : sourcesFail e = true) :
    ((recorderTickBody s e).db).length = s.db.length := by
  unfold recorderTickBody
  cases hrec : s.isRecording with
  | true =>
    by_cases hs : s.shouldRecord = false
    · simpa [hrec, hs] using stopPhase_db_length s e
    · simpa [hrec, hs] using congrArg List.length (recordPhase_db s e)
  | false =>
    have h2 := startPhase_fail_flag s e hsrc
    have h1 := startPhase_fail_db s e hsrc
    simp only [hrec, Bool.false_eq_true, if_false, h2, if_true]
    exact congrArg List.length h1

/-- The applied external signal never touches the session store. -/
theorem applyExt_db (s : RecState) (e : TickEnv) :
    (applyExt e s).db = s.db := by
  unfold applyExt
  cases e.extSignal <;> rfl

/-- A tick that changes the number of session store rows obtained both a
valid fix and a valid reading on that tick. -/
theorem insert_requires_both_sources (s : RecState) (e : TickEnv)
    (h : ((recorderTick s e).db).length ≠ s.db.length) :
    exceptOk (GPSReceiver.get_current_status e.gpsChan e.gpsAge) = true ∧
    exceptOk (Sensors.get_current_status e.sensorChan e.sensorAge) = true := by
  cases hg : GPSReceiver.get_current_status e.gpsChan e.gpsAge with
  | error ex =>
    exfalso
    apply h
    have hsrc : sourcesFail e = true := by simp [sourcesFail, exceptOk, hg]
    calc ((recorderTickBody (applyExt e s) e).db).length
        = ((applyExt e s).db).length :=
          body_db_length_no_sources (applyExt e s) e hsrc
      _ = s.db.length := congrArg List.length (applyExt_db s e)
  | ok r =>
    cases hsen : Sensors.get_current_status e.sensorChan e.sensorAge with
    | error ex2 =>
      exfalso
      apply h
      have hsrc : sourcesFail e = true := by simp [sourcesFail, exceptOk, hsen]
      calc ((recorderTickBody (applyExt e s) e).db).length
          = ((applyExt e s).db).length :=
            body_db_length_no_sources (applyExt e s) e hsrc
        _ = s.db.length := congrArg List.length (applyExt_db s e)
    | ok r2 => exact ⟨by simp [exceptOk, hg], by simp [exceptOk, hsen]⟩

end Recorder

/-- C4: when the desired flag is set but no valid fix or reading is
obtainable on any tick, the recorder run exhausts its bounded retry
budget (failure counter exceeding 20) and forces the desired flag back to
false without ever acknowledging recording or inserting a session row;
the blocking start helper then observes the cancelled flag and returns
the -1 sentinel; and any tick that does insert a session row obtained
both a valid fix and a valid reading on that same tick. -/
theorem start_budget_exhausted_gives_up (s : Recorder.RecState)
    (envs : List Recorder.TickEnv) (h1 : s.shouldRecord = true)
    (h2 : s.isRecording = false) (h3 : s.failedStartCycles = 0)
    (hall : ∀ e ∈ envs, e.extSignal = none ∧ Recorder.sourcesFail e = true)
    (hlen : 22 ≤ envs.length) :
    (Recorder.recorderRun s envs).shouldRecord = false ∧
    (Recorder.recorderRun s envs).isRecording = false ∧
    (Recorder.recorderRun s envs).db = s.db ∧
    (∀ obs : ℕ → RecChan, (obs 0).shouldRecord = false →
      start_collection obs = .ok (-1)) ∧
    (∀ (s2 : Recorder.RecState) (e : Recorder.TickEnv),
      ((Recorder.recorderTick s2 e).db).length ≠ s2.db.length →
      exceptOk (GPSReceiver.get_current_status e.gpsChan e.gpsAge) = true ∧
      exceptOk (Sensors.get_current_status e.sensorChan e.sensorAge) = true) := by
  obtain ⟨d1, d2, _, d4⟩ := Recorder.run_failing envs s hall h2
  refine ⟨d4 h1 (by omega) (by omega), d2, d1, ?_, Recorder.insert_requires_both_sources⟩
  intro obs hobs
  show start_collection_loop obs (599 + 1) 0 = _
  rw [start_collection_loop]
  simp [hobs]

/-- Witness for C4: from the daemon's initial local state with a start
signal and 22 ticks on which neither channel has ever published, the run
cancels the desired flag and the session store stays empty. -/
theorem start_budget_exhausted_gives_up_witness :
    (Recorder.recorderRun Recorder.freshStartState
        (List.replicate 22 Recorder.noDataTick)).shouldRecord = false ∧
    (Recorder.recorderRun Recorder.freshStartState
        (List.replicate 22 Recorder.noDataTick)).db =
      Recorder.freshStartState.db := by
  have h := start_budget_exhausted_gives_up Recorder.freshStartState
    (List.replicate 22 Recorder.noDataTick) rfl rfl rfl (by decide) (by decide)
  exact ⟨h.1, h.2.2.1⟩

/-- C7: the GPS public read accessor raises the no-data condition exactly
when no fix has ever been published (channel value none) or the latest
published fix carries the zero-latitude sentinel, and otherwise returns
the latest fix together with its age. -/
theorem gps_accessor_no_data_sentinel (g : GPSStatus) (age : ℚ) :
    GPSReceiver.get_current_status none age = .error .noGPSData ∧
    GPSReceiver.get_current_status (some g) age =
      (if g.latitude = 0 then .error .noGPSData else .ok (g, age)) :=
  ⟨rfl, rfl⟩

/-- C10: the recorder status accessors dereference the channel value with
no no-data guard, so each raises AttributeError while the channel still
holds its initial none, and returns the published field otherwise. -/
theorem recorder_accessors_raise_before_first_publish :
    Recorder.get_current_collection_id none = .error .attrError ∧
    (∀ now : ℚ, Recorder.get_elapsed_s now none = .error .attrError) ∧
    Recorder.get_datapoints none = .error .attrError ∧
    (∀ p : RecorderStatus,
      Recorder.get_current_collection_id (some p) = .ok p.collection_id) ∧
    (∀ (now : ℚ) (p : RecorderStatus),
      Recorder.get_elapsed_s now (some p) = .ok (now - p.collection_local_start_s)) ∧
    (∀ p : RecorderStatus,
      Recorder.get_datapoints (some p) = .ok p.collected_points) :=
  ⟨rfl, fun _ => rfl, rfl, fun _ => rfl, fun _ _ => rfl, fun _ => rfl⟩

/-- C8: evaluating the GPS inner read loop at an available count of 33
shows that the loop issues a single block read of 32 bytes and stops,
because the body decrements the counter by its own value; the claimed
ceil(33/32) = 2 block reads covering all 33 bytes do not happen. -/
theorem gps_inner_read_zeroes_counter :
    GPSReceiver.readBlocks 33 = [32] ∧
    (GPSReceiver.readBlocks 33).length = 1 ∧
    (33 + 31) / 32 = 2 ∧
    (GPSReceiver.readBlocks 33).sum = 32 := by
  have h : GPSReceiver.readBlocks 33 = [32] :=
    GPSReceiver.readBlocks_pos 33 (by norm_num)
  refine ⟨h, ?_, by norm_num, ?_⟩ <;> rw [h] <;> rfl

/-- C3: a 10-byte response frame (shorter than the highest declared
channel offset) makes the parse raise IndexError, which the loop's
except clause for ParseError does not catch, so the cycle publishes
nothing and the loop crashes rather than continuing; a full 26-byte frame
decodes and publishes the complete batch. -/
theorem short_frame_crashes_sensor_loop :
    Sensors.sensor_cycle (List.replicate 10 0) none =
      (.crashed .indexError, none) ∧
    Sensors.sensor_cycle (List.replicate 26 0) none =
      (.published [⟨"PM 1.0", "pm_1_0", "ug/m3", 0⟩,
        ⟨"PM 2.5", "pm_2_5", "ug/m3", 0⟩, ⟨"PM 10", "pm_10", "ug/m3", 0⟩,
        ⟨"Carbon Dioxide", "co2", "ppm", 0⟩, ⟨"VOC", "voc", "grade", 0⟩,
        ⟨"Temperature", "temp", "C", -50⟩, ⟨"Humidity", "humidity", "%RH", 0⟩,
        ⟨"Formaldehyde", "ch2o", "mg/m3", 0⟩, ⟨"Carbon Monoxide", "co", "ppm", 0⟩,
        ⟨"Ozone", "o3", "ppm", 0⟩, ⟨"Nitrogen Dioxide", "no2", "ppm", 0⟩],
       some [⟨"PM 1.0", "pm_1_0", "ug/m3", 0⟩,
        ⟨"PM 2.5", "pm_2_5", "ug/m3", 0⟩, ⟨"PM 10", "pm_10", "ug/m3", 0⟩,
        ⟨"Carbon Dioxide", "co2", "ppm", 0⟩, ⟨"VOC", "voc", "grade", 0⟩,
        ⟨"Temperature", "temp", "C", -50⟩, ⟨"Humidity", "humidity", "%RH", 0⟩,
        ⟨"Formaldehyde", "ch2o", "mg/m3", 0⟩, ⟨"Carbon Monoxide", "co", "ppm", 0⟩,
        ⟨"Ozone", "o3", "ppm", 0⟩, ⟨"Nitrogen Dioxide", "no2", "ppm", 0⟩]) := by
  constructor
  · rfl
  · simp only [Sensors.sensor_cycle, Sensors.parse_data_packet,
      Sensors.parseChannels, Sensors.WINSEN_DATAPACKET, Sensors.rawCall,
      Sensors.applyExtract, Sensors.unsignedShort, List.replicate, List.get?,
      List.isEmpty]
    norm_num

/-- C5: a checksum-valid sentence all of whose carried fields cast
successfully publishes exactly the accumulated fix in which the fields
present in the sentence are overwritten and all others are carried over,
as the full five-field tuple; a parse or checksum failure, or a sentence
with a failing field cast, leaves the published fix unaltered. -/
theorem gps_publish_merge (acc : GPSStatus) (pub : Option GPSStatus)
    (sen : GPSReceiver.Sentence) :
    (GPSReceiver.sentenceValid sen = true →
      GPSReceiver.processLine acc pub (.parsed sen) =
        (GPSReceiver.mergeFixSpec acc sen,
         some (GPSReceiver.mergeFixSpec acc sen))) ∧
    GPSReceiver.processLine acc pub .failed = (acc, pub) ∧
    (GPSReceiver.sentenceValid sen = false →
      (GPSReceiver.processLine acc pub (.parsed sen)).2 = pub) := by
  obtain ⟨dt, la, lo, al, pd⟩ := sen
  refine ⟨fun h => ?_, rfl, fun h => ?_⟩ <;>
    cases la <;> cases lo <;> cases al <;> cases pd <;>
      simp_all [GPSReceiver.processLine, GPSReceiver.mergeFixSpec,
        GPSReceiver.sentenceValid, GPSReceiver.fieldValid, GPSReceiver.fieldGet]

/-- Witness for C5 at a concrete accumulator and a sentence carrying a
timestamp and a latitude only. -/
theorem gps_publish_merge_witness :
    GPSReceiver.sentenceValid
        ⟨some 100, .val 7, .absent, .absent, .absent⟩ = true ∧
    GPSReceiver.processLine ⟨1, 2, 3, 4, 5⟩ none
        (.parsed ⟨some 100, .val 7, .absent, .absent, .absent⟩) =
      (GPSReceiver.mergeFixSpec ⟨1, 2, 3, 4, 5⟩
          ⟨some 100, .val 7, .absent, .absent, .absent⟩,
       some (GPSReceiver.mergeFixSpec ⟨1, 2, 3, 4, 5⟩
          ⟨some 100, .val 7, .absent, .absent, .absent⟩)) :=
  ⟨by decide,
   (gps_publish_merge ⟨1, 2, 3, 4, 5⟩ none
      ⟨some 100, .val 7, .absent, .absent, .absent⟩).1 (by decide)⟩

/-- C6 counterexample: with the recorder idle but its channel never
published (value still none), stop_collection dereferences none and
raises AttributeError, so the claim that an idle stop never throws fails
at this concrete input. -/
theorem stop_idle_never_published_raises :
    stop_collection (fun _ => ⟨false, false, none⟩) = .error .attrError := by
  rfl

/-- C6 amended: when the recorder is idle and its channel has been
published at least once, stop_collection returns the last known
collection id on its first poll, well within the 600-poll bound, and
never raises. -/
theorem stop_idle_after_publish_returns_id (p : RecorderStatus)
    (obs : ℕ → RecChan) (h : obs 0 = ⟨false, false, some p⟩) :
    stop_collection obs = .ok p.collection_id := by
  show stop_collection_loop obs (599 + 1) 0 = _
  rw [stop_collection_loop]
  rw [h]
  rfl

/-- Witness for the amended C6 at a concrete published status. -/
theorem stop_idle_after_publish_returns_id_witness :
    stop_collection (fun _ => ⟨false, false, some ⟨7, 0, 3⟩⟩) = .ok 7 :=
  stop_idle_after_publish_returns_id ⟨7, 0, 3⟩
    (fun _ => ⟨false, false, some ⟨7, 0, 3⟩⟩) rfl
